import Mathlib

/-!
Verification of the transparent-proxy data path of deepin-network-proxy.

The Go sources are shallowly embedded: byte slices become `List Nat`
(each element a byte value), fallible operations return `Option` or
`Except`, and a Go runtime panic (slice bounds out of range) is modeled
by a dedicated `none` / `panicked` outcome, since the corresponding Go
functions have no error return for it.
-/

namespace DeepinProxy

/-- Go slice expression `xs[low:high]` on a byte slice whose capacity equals
its length: defined exactly when `low ≤ high ∧ high ≤ xs.length`; otherwise
the Go program panics with a slice-bounds runtime error, modeled as `none`. -/
def goSlice (xs : List Nat) (low high : Nat) : Option (List Nat) :=
  if low ≤ high ∧ high ≤ xs.length then some ((xs.drop low).take (high - low))
  else none

/-- `binary.BigEndian.Uint16` on a byte slice (callers always pass length-2
slices, already bounds-checked by the slicing that produced them). -/
def be16 (b : List Nat) : Nat :=
  b.getD 0 0 * 256 + b.getD 1 0

/-- `binary.BigEndian.PutUint16` into a fresh 2-byte slice. -/
def putUint16 (p : Nat) : List Nat :=
  [p / 256 % 256, p % 256]

/-- The 12-byte prefix (`v4InV6Prefix` in the Go net package) of the 16-byte
representation of an IPv4 address. -/
def v4InV6Prefix : List Nat :=
  [0, 0, 0, 0, 0, 0, 0, 0, 0, 0, 255, 255]

/-- `net.IP.To4`: a 4-byte address is returned as is; a 16-byte IPv4-mapped
address is reduced to its last 4 bytes; any other value yields nil. -/
def ipTo4 (ip : List Nat) : Option (List Nat) :=
  if ip.length = 4 then some ip
  else if ip.length = 16 ∧ ip.take 12 = v4InV6Prefix then some (ip.drop 12)
  else none

/-- `net.IP.To16`: a 4-byte address is widened with `v4InV6Prefix`; a 16-byte
address is returned as is; any other value yields nil. -/
def ipTo16 (ip : List Nat) : Option (List Nat) :=
  if ip.length = 4 then some (v4InV6Prefix ++ ip)
  else if ip.length = 16 then some ip
  else none

/-- `net.IPv4 a b c d`: the Go net package returns the 16-byte
IPv4-in-IPv6-mapped form. -/
def netIPv4 (a b c d : Nat) : List Nat :=
  v4InV6Prefix ++ [a, b, c, d]

/-- A Go `net.Addr` value of concrete type `*net.TCPAddr` or `*net.UDPAddr`:
the IP bytes and the port. -/
inductive GoAddr where
  | tcp (ip : List Nat) (port : Nat)
  | udp (ip : List Nat) (port : Nat)
  deriving DecidableEq

/-- `DataPackage` from Iptables/iptablesMember.go: a decoded UDP relay
datagram, address plus payload. -/
structure DataPackage where
  Addr : GoAddr
  Data : List Nat
  deriving DecidableEq

/-- `UnMarshalPackage` from Iptables/iptablesMember.go: decode a SOCKS5 UDP
datagram envelope assuming the fixed IPv4 layout, with no validation.  The Go
function returns a bare `DataPackage` with no error value; `none` models the
slice-bounds panic raised by `msg[4:8]`, `msg[8:10]` or `msg[10:]` when the
input is shorter than 10 bytes. -/
def UnMarshalPackage (msg : List Nat) : Option DataPackage :=
  match goSlice msg 4 8, goSlice msg 8 10, goSlice msg 10 msg.length with
  | some addr, some portB, some data =>
      some { Addr := GoAddr.udp addr (be16 portB), Data := data }
  | _, _, _ => none

/-- Linux socket-level constant `syscall.SOL_IP`. -/
def SOL_IP : Nat := 0

/-- Linux socket-level constant `syscall.SOL_IPV6`. -/
def SOL_IPV6 : Nat := 41

/-- Linux control-message type `syscall.IP_RECVORIGDSTADDR` (= 20). -/
def IP_RECVORIGDSTADDR : Nat := 20

/-- One parsed socket control message, as produced by
`syscall.ParseSocketControlMessage`: header level and type, plus the data
bytes.  That parser only checks the cmsg header lengths against the buffer,
so `data` may be arbitrarily short (in particular shorter than a sockaddr
record). -/
structure Cmsg where
  level : Nat
  typ : Nat
  data : List Nat
  deriving DecidableEq

/-- `BaseAddr` from Iptables/iptablesMember.go. -/
structure BaseAddr where
  IP : List Nat
  Port : Nat
  deriving DecidableEq

/-- Outcome of origin-destination recovery: a Go runtime panic, the
no-matching-record error return (`addr == nil`), or a recovered address. -/
inductive RecoveryResult where
  | panicked
  | failed
  | found (addr : BaseAddr)
  deriving DecidableEq

/-- The loop of `ParseRemoteAddrFromMsgHdr` over the parsed control messages:
for a matching SOL_IP record it builds the address from `msg.Data[4:8]` and
the port from `msg.Data[2:4]`; for a matching SOL_IPV6 record from
`msg.Data[8:24]` and `msg.Data[2:4]`.  The slice expressions carry no length
guard in the Go source, so data too short for them panics. -/
def origDstFold : List Cmsg → Option BaseAddr → RecoveryResult
  | [], addr =>
    match addr with
    | none => .failed
    | some a => .found a
  | m :: rest, addr =>
    if m.level = SOL_IP ∧ m.typ = IP_RECVORIGDSTADDR then
      match goSlice m.data 4 8, goSlice m.data 2 4 with
      | some ipB, some portB => origDstFold rest (some ⟨ipB, be16 portB⟩)
      | _, _ => .panicked
    else if m.level = SOL_IPV6 ∧ m.typ = IP_RECVORIGDSTADDR then
      match goSlice m.data 8 24, goSlice m.data 2 4 with
      | some ipB, some portB => origDstFold rest (some ⟨ipB, be16 portB⟩)
      | _, _ => .panicked
    else origDstFold rest addr

/-- `ParseRemoteAddrFromMsgHdr` from Iptables/iptablesMember.go, modeled from
the point where `syscall.ParseSocketControlMessage` has produced the message
list (the earlier nil-buffer and malformed-header checks reject the raw
buffer before this loop runs). -/
def ParseRemoteAddrFromMsgHdr (msgs : List Cmsg) : RecoveryResult :=
  origDstFold msgs none

/-- Claim C10: `UnMarshalPackage` is total only for inputs of at least 10
bytes.  For every input of length ≥ 10 it returns the address taken from
bytes 4..8, the big-endian port from bytes 8..10 and the remaining bytes as
payload; for every shorter input it panics (modeled as `none`) instead of
returning an error value. -/
theorem c10_unmarshal (msg : List Nat) :
    (10 ≤ msg.length →
      UnMarshalPackage msg
        = some { Addr := GoAddr.udp ((msg.drop 4).take 4)
                   (be16 ((msg.drop 8).take 2)),
                 Data := msg.drop 10 }) ∧
    (msg.length < 10 → UnMarshalPackage msg = none) := by
  constructor
  · intro h
    have h1 : goSlice msg 4 8 = some ((msg.drop 4).take 4) := by
      unfold goSlice
      rw [if_pos ⟨by omega, by omega⟩]
    have h2 : goSlice msg 8 10 = some ((msg.drop 8).take 2) := by
      unfold goSlice
      rw [if_pos ⟨by omega, by omega⟩]
    have h3 : goSlice msg 10 msg.length = some (msg.drop 10) := by
      unfold goSlice
      rw [if_pos ⟨by omega, le_refl _⟩]
      congr 1
      rw [← List.length_drop, List.take_length]
    simp only [UnMarshalPackage, h1, h2, h3]
  · intro h
    unfold UnMarshalPackage goSlice
    split_ifs <;> first | rfl | (exfalso; omega)

/-- Witness for C10 at a concrete 10-byte datagram. -/
theorem c10_unmarshal_witness :
    UnMarshalPackage [0, 0, 0, 1, 9, 9, 9, 9, 0, 80]
      = some { Addr := GoAddr.udp [9, 9, 9, 9] 80, Data := [] } := by
  rw [(c10_unmarshal [0, 0, 0, 1, 9, 9, 9, 9, 0, 80]).1 (by decide)]
  rfl

/-- Claim C3: evaluation of the decoder at a datagram whose declared
address-type byte is 4 (IPv6), not 1 (IPv4).  The decoder never inspects the
address-type byte: it silently parses the fixed IPv4 layout and returns an
address, port and payload instead of rejecting the datagram with an error
(the Go function has no error return at all). -/
theorem c3_decoder_ignores_atyp :
    UnMarshalPackage [0, 0, 0, 4, 9, 9, 9, 9, 0, 80]
      = some { Addr := GoAddr.udp [9, 9, 9, 9] 80, Data := [] } := rfl

/-- Claim C4: evaluation of origin-destination recovery at a control-message
chain containing a matching SOL_IP original-destination record whose data is
only 4 bytes — too short for the fixed sockaddr record.  The code panics at
`msg.Data[4:8]` (slice bounds out of range) rather than returning a
malformed-record error. -/
theorem c4_short_record_panics :
    ParseRemoteAddrFromMsgHdr
        [{ level := SOL_IP, typ := IP_RECVORIGDSTADDR, data := [0, 0, 0, 80] }]
      = RecoveryResult.panicked := rfl

/-- A converted `syscall.Sockaddr`: `SockaddrInet4` or `SockaddrInet6`. -/
inductive SockAddr where
  | inet4 (addr : List Nat) (port : Nat)
  | inet6 (addr : List Nat) (port : Nat)
  deriving DecidableEq

/-- The distinct error exits of `MegaDial` and its helpers, one constructor
per `return nil, err` site. -/
inductive DialErr where
  | typeMismatch
  | localIpIncorrect
  | socketFailed
  | sockOptFailed
  | convertFailed
  | bindFailed
  | connectFailed
  | fileConnFailed
  deriving DecidableEq

/-- `reflect.TypeOf lAddr != reflect.TypeOf rAddr` for the two concrete
`net.Addr` types handled by the dialer: the Go types agree exactly when both
are `*net.TCPAddr` or both `*net.UDPAddr` (the IP and port values play no
part in the comparison). -/
def sameGoType : GoAddr → GoAddr → Bool
  | .tcp _ _, .tcp _ _ => true
  | .udp _ _, .udp _ _ => true
  | _, _ => false

/-- IP field of a `*net.TCPAddr` / `*net.UDPAddr` (read via reflection in
the source). -/
def addrIP : GoAddr → List Nat
  | .tcp ip _ => ip
  | .udp ip _ => ip

/-- Port field of a `*net.TCPAddr` / `*net.UDPAddr`. -/
def addrPort : GoAddr → Nat
  | .tcp _ p => p
  | .udp _ p => p

/-- `convertAddrToSockAddr` from Iptables/iptablesMember.go.  The leading
reflection `ConvertibleTo` guard always passes for `*net.TCPAddr` and
`*net.UDPAddr`, the only types constructible here.  Port 0 defaults to 80.
The only possible failure is an IP neither 4- nor 16-byte representable
(`ip is not ipv4 or ipv6`), so the result is an `Option`, mapped to
`DialErr.convertFailed` by the caller. -/
def convertAddrToSockAddr (addr : GoAddr) : Option SockAddr :=
  let ip := addrIP addr
  let port := if addrPort addr = 0 then 80 else addrPort addr
  match ipTo4 ip with
  | some ip4 => some (.inet4 ip4 port)
  | none =>
    match ipTo16 ip with
    | some ip16 => some (.inet6 ip16 port)
    | none => none

/-- Which of the fallible syscalls inside `MegaDial` fail, abstracting the
kernel.  `SetSockOptTrn` (a getsockopt plus three setsockopt calls) is
folded into the single `sockOptFails` step, and `os.NewFile` together with
`net.FileConn` into `fileConnFails`. -/
structure SysOracle where
  socketFails : Bool
  sockOptFails : Bool
  bindFails : Bool
  connectFails : Bool
  fileConnFails : Bool
  deriving DecidableEq

/-- `MegaDial` from Iptables/iptablesMember.go.  The result pairs the dial
outcome (on success, the connected descriptor number) with the list of file
descriptors still open when the function returns; `3` stands for the
descriptor allocated by `syscall.Socket`.  The Go source contains no
`syscall.Close` on any path, so once `syscall.Socket` succeeds the
descriptor stays open on every exit, error exits included. -/
def MegaDial (o : SysOracle) (network : String) (lAddr rAddr : GoAddr) :
    Except DialErr Nat × List Nat :=
  if sameGoType lAddr rAddr = false then (.error .typeMismatch, [])
  else
    match (if (ipTo4 (addrIP lAddr)).isSome then some 2
           else if (ipTo16 (addrIP lAddr)).isSome then some 10
           else none : Option Nat) with
    | none => (.error .localIpIncorrect, [])
    | some _domain =>
      let _typ : Nat := if network = "tcp" then 1
                        else if network = "udp" then 2 else 0
      if o.socketFails then (.error .socketFailed, [])
      else
        let fd : Nat := 3
        let opened := [fd]
        if o.sockOptFails then (.error .sockOptFailed, opened)
        else
          match convertAddrToSockAddr lAddr with
          | none => (.error .convertFailed, opened)
          | some _lSockAddr =>
            match convertAddrToSockAddr rAddr with
            | none => (.error .convertFailed, opened)
            | some _rSockAddr =>
              if o.bindFails then (.error .bindFailed, opened)
              else if o.connectFails then (.error .connectFailed, opened)
              else if o.fileConnFails then (.error .fileConnFailed, opened)
              else (.ok fd, opened)

/-- Claim C6: evaluation of `MegaDial` at failing syscall steps after socket
creation.  When connect fails (and likewise when setting the socket options
fails), the error is returned with descriptor 3 still open: the partially
constructed descriptor is never released, contradicting the claim that a
failed dial leaves no open descriptor behind. -/
theorem c6_fd_leak_on_failure :
    MegaDial ⟨false, false, false, true, false⟩ "tcp"
        (GoAddr.tcp [127, 0, 0, 1] 8080) (GoAddr.tcp [1, 2, 3, 4] 443)
      = (.error .connectFailed, [3])
    ∧ MegaDial ⟨false, true, false, false, false⟩ "tcp"
        (GoAddr.tcp [127, 0, 0, 1] 8080) (GoAddr.tcp [1, 2, 3, 4] 443)
      = (.error .sockOptFailed, [3]) := ⟨rfl, rfl⟩

/-- Claim C7 counterexample: an IPv4 local address paired with an IPv6 remote
address of the same transport (both `*net.TCPAddr`).  The dialer's only
validation compares the Go types, which match, so no address-family-mismatch
error is raised: with all syscalls succeeding the dial completes, and when
the kernel rejects the connect the surfaced error is the connect failure,
not the type-mismatch error. -/
theorem c7_family_mismatch_not_rejected :
    MegaDial ⟨false, false, false, false, false⟩ "tcp"
        (GoAddr.tcp [127, 0, 0, 1] 8080)
        (GoAddr.tcp [0, 0, 0, 0, 0, 0, 0, 0, 0, 0, 0, 0, 0, 0, 0, 1] 443)
      = (.ok 3, [3])
    ∧ MegaDial ⟨false, false, false, true, false⟩ "tcp"
        (GoAddr.tcp [127, 0, 0, 1] 8080)
        (GoAddr.tcp [0, 0, 0, 0, 0, 0, 0, 0, 0, 0, 0, 0, 0, 0, 0, 1] 443)
      = (.error .connectFailed, [3]) := ⟨rfl, rfl⟩

/-- Claim C7 as amended: the dialer requires only that the local and remote
addresses have the same Go address type (same transport: TCPAddr with
TCPAddr, UDPAddr with UDPAddr), failing with the type-mismatch error
otherwise; it performs no address-family comparison, so the type-mismatch
error never fires for same-transport pairs, whatever their families. -/
theorem c7_amended_type_check (o : SysOracle) (network : String)
    (lAddr rAddr : GoAddr) :
    (sameGoType lAddr rAddr = false →
      MegaDial o network lAddr rAddr = (.error .typeMismatch, [])) ∧
    (sameGoType lAddr rAddr = true →
      (MegaDial o network lAddr rAddr).1 ≠ .error .typeMismatch) := by
  constructor
  · intro h
    unfold MegaDial
    rw [if_pos h]
  · intro h hcontra
    unfold MegaDial at hcontra
    rw [h] at hcontra
    simp only [Bool.true_eq_false, if_false] at hcontra
    repeat' split at hcontra
    all_goals simp_all

/-- Witness for the amended C7 theorem: a TCP local address with a UDP
remote address is rejected with the type-mismatch error. -/
theorem c7_amended_witness :
    MegaDial ⟨false, false, false, false, false⟩ "tcp"
        (GoAddr.tcp [1, 2, 3, 4] 1) (GoAddr.udp [1, 2, 3, 4] 1)
      = (.error .typeMismatch, []) :=
  (c7_amended_type_check ⟨false, false, false, false, false⟩ "tcp"
    (GoAddr.tcp [1, 2, 3, 4] 1) (GoAddr.udp [1, 2, 3, 4] 1)).1 rfl

/-- The remote target handed to `TcpSock5Handler.Tunnel`: a `*net.TCPAddr`
(IP bytes and port), a `*DomainAddr` (domain bytes and port), or any other
`net.Addr` implementation. -/
inductive RAddr where
  | tcp (ip : List Nat) (port : Nat)
  | domain (name : List Nat) (port : Nat)
  | other
  deriving DecidableEq

/-- The proxy-side connection during negotiation: the remaining read script
(one byte chunk per Read / ReadFull call issued by the handler, abstracting
the upstream server) and the writes performed so far, in order. -/
structure ConnState where
  reads : List (List Nat)
  writes : List (List Nat)
  deriving DecidableEq

/-- Go `dst[i] = chunk[i]` semantics of `rConn.Read(buf)`: the delivered
bytes overwrite a prefix of `buf`, the rest of `buf` keeps its old
contents, and at most `buf.length` bytes are delivered. -/
def overwritePrefix (buf chunk : List Nat) : List Nat :=
  chunk.take buf.length ++ buf.drop (min chunk.length buf.length)

/-- `rConn.Read(buf)`: consume the next script chunk into `buf`; an
exhausted script models a read error. -/
def ioRead (s : ConnState) (buf : List Nat) : Option (List Nat × ConnState) :=
  match s.reads with
  | [] => none
  | c :: rest => some (overwritePrefix buf c, { s with reads := rest })

/-- `io.ReadFull(rConn, buf[0:n])`: needs exactly `n` bytes; a `ReadFull` of
0 bytes returns at once without touching the connection; a chunk shorter
than `n` models `io.ErrUnexpectedEOF`. -/
def ioReadFull (s : ConnState) (n : Nat) : Option (List Nat × ConnState) :=
  if n = 0 then some ([], s)
  else
    match s.reads with
    | [] => none
    | c :: rest =>
      if n ≤ c.length then some (c.take n, { s with reads := rest })
      else none

/-- `rConn.Write(buf)`: writes are recorded in order; write errors are not
modeled (no claim turns on them). -/
def ioWrite (s : ConnState) (b : List Nat) : ConnState :=
  { s with writes := s.writes ++ [b] }

/-- The distinct error exits of `TcpSock5Handler.Tunnel`, one constructor
per `return` of a non-nil error (I/O failures collapsed into
`readFailed`). -/
inductive TErr where
  | typeNotTcp
  | readFailed
  | protoInvalid (v m : Nat)
  | authIncorrect (code : Nat)
  | domainTooLong
  | ipInvalid
  | connectRejected (v c : Nat)
  | atypInvalid
  deriving DecidableEq

/-- Lines 91–98: the SOCKS5 greeting.  `buf := [5, 1, 0]`; when both the
user name and the password are non-empty, `buf[1]` becomes 2 and method 2
is appended. -/
def greetingBuf (user password : List Nat) : List Nat :=
  if user ≠ [] ∧ password ≠ [] then [5, 2, 0, 2] else [5, 1, 0]

/-- Lines 133–138: the RFC 1929 auth request; `byte(len ...)` truncates the
length to one byte. -/
def authRequestBuf (user password : List Nat) : List Nat :=
  [1, user.length % 256] ++ user ++ [password.length % 256] ++ password

/-- Lines 166–196: the CONNECT request.  `buf := [5, 1, 0, _]`; an empty
`dominname` means a literal address: ATYP 1 with the 4 `To4` bytes when the
stored IP has length 4 (`len(ip) == net.IPv4len && ip.To4() != nil`), else
ATYP 4 with the 16 `To16` bytes, else the `ip invalid` error.  A non-empty
`dominname` longer than 255 bytes is the `domain name out of max length`
error, else ATYP 3 with a 1-byte length prefix.  A zero port defaults to 80
before the 2-byte big-endian encoding. -/
def connectRequestBuf (ip dominname : List Nat) (port : Nat) :
    Except TErr (List Nat) :=
  let addrPart : Except TErr (List Nat) :=
    if dominname = [] then
      if ip.length = 4 ∧ (ipTo4 ip).isSome then
        .ok ([5, 1, 0, 1] ++ (ipTo4 ip).getD [])
      else if (ipTo16 ip).isSome then
        .ok ([5, 1, 0, 4] ++ (ipTo16 ip).getD [])
      else .error .ipInvalid
    else
      if dominname.length > 255 then .error .domainTooLong
      else .ok ([5, 1, 0, 3, dominname.length % 256] ++ dominname)
  match addrPart with
  | .error e => .error e
  | .ok b =>
    let port := if port = 0 then 80 else port
    .ok (b ++ putUint16 port)

/-- Lines 123–157: the username/password sub-negotiation.  The auth request
is written, the reply is read into a fresh 32-byte buffer, and the first
byte is accepted exactly when it is 5 or 1 (the source comment: RFC 1929
servers answer 1 but some SOCKS5 servers answer 5); anything else is the
`incorrect sock5 auth response` error. -/
def tunnelAuth (user password : List Nat) (s : ConnState) :
    Except TErr Unit × ConnState :=
  let s := ioWrite s (authRequestBuf user password)
  match ioRead s (List.replicate 32 0) with
  | none => (.error .readFailed, s)
  | some (buf, s1) =>
    if buf.getD 0 0 ≠ 5 ∧ buf.getD 0 0 ≠ 1 then
      (.error (.authIncorrect (buf.getD 0 0)), s1)
    else (.ok (), s1)

/-- Lines 166–258: the CONNECT stage.  The request is encoded and written,
then the fixed reply header (version, reply code, reserved) is read and
must be version 5 with code 0, then the bind address is read and discarded:
one address-type byte, then 4, 16 or length-prefixed-domain address bytes,
then the 2-byte port.  (The source reuses the request buffer for these
reads and re-allocates it when the bind address is longer; since every read
value is discarded, only the consumed byte counts are observable.) -/
def tunnelConnect (ip dominname : List Nat) (port : Nat) (s : ConnState) :
    Except TErr Unit × List (List Nat) :=
  match connectRequestBuf ip dominname port with
  | .error e => (.error e, s.writes)
  | .ok buf =>
    let s := ioWrite s buf
    match ioReadFull s 3 with
    | none => (.error .readFailed, s.writes)
    | some (hdr, s1) =>
      if hdr.getD 0 0 ≠ 5 ∨ hdr.getD 1 0 ≠ 0 then
        (.error (.connectRejected (hdr.getD 0 0) (hdr.getD 1 0)), s1.writes)
      else
        match ioReadFull s1 1 with
        | none => (.error .readFailed, s1.writes)
        | some (atypB, s2) =>
          match (if atypB.getD 0 0 = 1 then .ok (4, s2)
                 else if atypB.getD 0 0 = 4 then .ok (16, s2)
                 else if atypB.getD 0 0 = 3 then
                   match ioReadFull s2 1 with
                   | none => .error TErr.readFailed
                   | some (lb, s3) => .ok (lb.getD 0 0, s3)
                 else .error TErr.atypInvalid :
                   Except TErr (Nat × ConnState)) with
          | .error e => (.error e, s2.writes)
          | .ok (addrLen, s4) =>
            match ioReadFull s4 addrLen with
            | none => (.error .readFailed, s4.writes)
            | some (_, s5) =>
              match ioReadFull s5 2 with
              | none => (.error .readFailed, s5.writes)
              | some (_, s6) => (.ok (), s6.writes)

/-- Lines 76–258 of `TcpSock5Handler.Tunnel`, after the proxy connection is
established and the target has been classified: write the greeting, read
the method-selection reply into the greeting buffer, check
`buf[0] != 5 || (buf[1] != 0 && buf[1] != 2)`, run the auth sub-negotiation
when method 2 was selected, then the CONNECT stage.  The result pairs the
outcome with every write performed on the proxy connection. -/
def tunnelNegotiate (ip dominname : List Nat) (port : Nat)
    (user password : List Nat) (script : List (List Nat)) :
    Except TErr Unit × List (List Nat) :=
  let g := greetingBuf user password
  let s := ioWrite { reads := script, writes := [] } g
  match ioRead s g with
  | none => (.error .readFailed, s.writes)
  | some (buf, s1) =>
    if buf.getD 0 0 ≠ 5 ∨ (buf.getD 1 0 ≠ 0 ∧ buf.getD 1 0 ≠ 2) then
      (.error (.protoInvalid (buf.getD 0 0) (buf.getD 1 0)), s1.writes)
    else if buf.getD 1 0 = 2 then
      match tunnelAuth user password s1 with
      | (.error e, s2) => (.error e, s2.writes)
      | (.ok _, s2) => tunnelConnect ip dominname port s2
    else tunnelConnect ip dominname port s1

/-- `TcpSock5Handler.Tunnel` (unnamed Go file, lines 54–265), from the point
where `dialProxy` has succeeded (the read script stands for the connected
proxy server).  The `switch addr := handler.rAddr.(type)` on lines 62–75:
for a `*net.TCPAddr` only the IP is taken — `addr.Port` is never read, so
the local `port` variable keeps its zero value; for a `*DomainAddr` the
port is `uint16(addr.Port)` and the placeholder IP is `net.IPv4(0,0,0,1)`;
any other type is the `type is not tcp` error. -/
def Tunnel (rAddr : RAddr) (user password : List Nat)
    (script : List (List Nat)) : Except TErr Unit × List (List Nat) :=
  match rAddr with
  | .tcp ip _tcpPort => tunnelNegotiate ip [] 0 user password script
  | .domain name p =>
      tunnelNegotiate (netIPv4 0 0 0 1) name (p % 65536) user password script
  | .other => (.error .typeNotTcp, [])

/-- Reduction of the negotiation at the method-selection reply: delivering
the 2-byte reply `[v, m]` turns the run into the version/method check,
followed by the auth sub-negotiation (method 2) or directly by the CONNECT
stage. -/
lemma tunnelNegotiate_reply (ip dominname : List Nat) (port : Nat)
    (user password : List Nat) (v m : Nat) (rest : List (List Nat)) :
    tunnelNegotiate ip dominname port user password ([v, m] :: rest)
      = if v ≠ 5 ∨ (m ≠ 0 ∧ m ≠ 2) then
          (Except.error (TErr.protoInvalid v m), [greetingBuf user password])
        else if m = 2 then
          match tunnelAuth user password
              ⟨rest, [greetingBuf user password]⟩ with
          | (Except.error e, s2) => (Except.error e, s2.writes)
          | (Except.ok _, s2) => tunnelConnect ip dominname port s2
        else tunnelConnect ip dominname port
            ⟨rest, [greetingBuf user password]⟩ := by
  by_cases hc : user ≠ [] ∧ password ≠ []
  · have hg : greetingBuf user password = [5, 2, 0, 2] := by
      simp [greetingBuf, hc]
    simp only [tunnelNegotiate]
    rw [hg]
    rfl
  · have hg : greetingBuf user password = [5, 1, 0] := by
      simp [greetingBuf, hc]
    simp only [tunnelNegotiate]
    rw [hg]
    rfl

/-- Claim C8: handling of the 2-byte method-selection reply `(v, m)` read in
the GreetingSent state.  A reply version other than 5 fails with the
protocol-mismatch error and the write trace stays at the greeting alone (no
further writes); with version 5 a method other than 0 and 2 fails with the
same check's method-rejection error; method 2 proceeds to the auth
sub-negotiation; method 0 proceeds directly to the CONNECT stage. -/
theorem c8_method_selection (ip dominname : List Nat) (port : Nat)
    (user password : List Nat) (v m : Nat) (rest : List (List Nat)) :
    (v ≠ 5 →
      tunnelNegotiate ip dominname port user password ([v, m] :: rest)
        = (Except.error (TErr.protoInvalid v m), [greetingBuf user password])) ∧
    (v = 5 → m ≠ 0 → m ≠ 2 →
      tunnelNegotiate ip dominname port user password ([v, m] :: rest)
        = (Except.error (TErr.protoInvalid v m), [greetingBuf user password])) ∧
    (v = 5 → m = 2 →
      tunnelNegotiate ip dominname port user password ([v, m] :: rest)
        = match tunnelAuth user password
              ⟨rest, [greetingBuf user password]⟩ with
          | (Except.error e, s2) => (Except.error e, s2.writes)
          | (Except.ok _, s2) => tunnelConnect ip dominname port s2) ∧
    (v = 5 → m = 0 →
      tunnelNegotiate ip dominname port user password ([v, m] :: rest)
        = tunnelConnect ip dominname port
            ⟨rest, [greetingBuf user password]⟩) := by
  refine ⟨?_, ?_, ?_, ?_⟩
  · intro hv
    rw [tunnelNegotiate_reply, if_pos (Or.inl hv)]
  · intro _ hm0 hm2
    rw [tunnelNegotiate_reply, if_pos (Or.inr ⟨hm0, hm2⟩)]
  · intro hv hm
    subst hv; subst hm
    rw [tunnelNegotiate_reply, if_neg (by decide), if_pos rfl]
  · intro hv hm
    subst hv; subst hm
    rw [tunnelNegotiate_reply, if_neg (by decide), if_neg (by decide)]

/-- Witness for C8 at a concrete bad reply version. -/
theorem c8_method_selection_witness :
    tunnelNegotiate [1, 2, 3, 4] [] 0 [] [] [[6, 0]]
      = (Except.error (TErr.protoInvalid 6 0), [greetingBuf [] []]) :=
  (c8_method_selection [1, 2, 3, 4] [] 0 [] [] 6 0 []).1 (by decide)

/-- Claim C1 counterexample: the claim accepts auth-reply first byte 0 and
rejects 5; the code does the opposite.  With credentials set and the server
selecting method 2, an auth reply starting with byte 0 terminates the
session with the authentication error (the CONNECT request is never
written), while an auth reply of byte 5 is treated as success and the
session completes the CONNECT exchange. -/
theorem c1_auth_status_counterexample :
    Tunnel (RAddr.tcp [1, 2, 3, 4] 443) [117] [112] [[5, 2], [0, 0]]
      = (Except.error (TErr.authIncorrect 0),
         [[5, 2, 0, 2], [1, 1, 117, 1, 112]])
    ∧ Tunnel (RAddr.tcp [1, 2, 3, 4] 443) [117] [112]
        [[5, 2], [5], [5, 0, 0], [1], [1, 2, 3, 4], [0, 0]]
      = (Except.ok (), [[5, 2, 0, 2], [1, 1, 117, 1, 112],
          [5, 1, 0, 1, 1, 2, 3, 4, 0, 80]]) := ⟨rfl, rfl⟩

/-- Claim C1 as amended: during the username/password sub-negotiation, an
auth reply whose first byte is 1 or 5 is treated as success and the
negotiation proceeds to the CONNECT stage; any other first byte (0
included) fails with the authentication error and nothing further is
written. -/
theorem c1_amended_auth_accepts_1_or_5 (ip : List Nat) (port : Nat)
    (user password : List Nat) (hu : user ≠ []) (hp : password ≠ [])
    (b : Nat) (t : List Nat) (rest : List (List Nat)) :
    (b = 1 ∨ b = 5 →
      tunnelNegotiate ip [] port user password ([5, 2] :: (b :: t) :: rest)
        = tunnelConnect ip [] port
            ⟨rest, [[5, 2, 0, 2], authRequestBuf user password]⟩) ∧
    (b ≠ 1 → b ≠ 5 →
      tunnelNegotiate ip [] port user password ([5, 2] :: (b :: t) :: rest)
        = (Except.error (TErr.authIncorrect b),
           [[5, 2, 0, 2], authRequestBuf user password])) := by
  have hg : greetingBuf user password = [5, 2, 0, 2] := by
    simp [greetingBuf, hu, hp]
  have hstep := tunnelNegotiate_reply ip [] port user password 5 2
    ((b :: t) :: rest)
  rw [if_neg (by decide), if_pos rfl, hg] at hstep
  constructor
  · rintro (rfl | rfl) <;> (rw [hstep]; rfl)
  · intro h1 h5
    rw [hstep]
    have hb : (overwritePrefix (List.replicate 32 0) (b :: t)).getD 0 0 = b :=
      rfl
    have ha : tunnelAuth user password
        ⟨(b :: t) :: rest, [[5, 2, 0, 2]]⟩
        = (Except.error (TErr.authIncorrect b),
           { reads := rest,
             writes := [[5, 2, 0, 2], authRequestBuf user password] }) := by
      simp only [tunnelAuth, ioWrite, ioRead, hb]
      rw [if_pos ⟨h5, h1⟩]
      rfl
    rw [ha]

/-- Witness for the amended C1 theorem: auth reply byte 5 proceeds to the
CONNECT stage. -/
theorem c1_amended_witness :
    tunnelNegotiate [1, 2, 3, 4] [] 0 [117] [112] ([5, 2] :: [5] :: [])
      = tunnelConnect [1, 2, 3, 4] [] 0
          ⟨[], [[5, 2, 0, 2], authRequestBuf [117] [112]]⟩ :=
  (c1_amended_auth_accepts_1_or_5 [1, 2, 3, 4] 0 [117] [112]
    (by decide) (by decide) 5 [] []).1 (Or.inr rfl)

/-- Claim C2: the `*net.TCPAddr` arm of the target switch copies only the
IP; `addr.Port` is never read, so the CONNECT request of every TCP target
carries the default port 80.  First conjunct: every TCP target is
negotiated with the port argument fixed at 0 (the uninitialized local),
whatever the target's actual port.  Second conjunct: for the target
1.2.3.4:443 the CONNECT request ends in bytes `[0, 80]` — port 80, not
443. -/
theorem c2_tcp_port_dropped :
    (∀ (ip : List Nat) (p : Nat) (user password : List Nat)
        (script : List (List Nat)),
      Tunnel (RAddr.tcp ip p) user password script
        = tunnelNegotiate ip [] 0 user password script)
    ∧ Tunnel (RAddr.tcp [1, 2, 3, 4] 443) [] [] [[5, 0]]
      = (Except.error TErr.readFailed,
         [[5, 1, 0], [5, 1, 0, 1, 1, 2, 3, 4, 0, 80]]) :=
  ⟨fun _ _ _ _ _ => rfl, rfl⟩

/-- Claim C5 counterexample: `net.IPv4 1 2 3 4` — an IPv4 address stored in
the 16-byte mapped form, so representable in 4 bytes (`To4` succeeds) — is
encoded with ATYP 4 and 16 address bytes, not ATYP 1 with 4 bytes, because
the IPv4 branch additionally requires the stored length to be exactly 4. -/
theorem c5_mapped_ipv4_counterexample :
    connectRequestBuf (netIPv4 1 2 3 4) [] 80
      = Except.ok [5, 1, 0, 4, 0, 0, 0, 0, 0, 0, 0, 0, 0, 0, 255, 255,
          1, 2, 3, 4, 0, 80]
    ∧ ipTo4 (netIPv4 1 2 3 4) = some [1, 2, 3, 4] := ⟨rfl, rfl⟩

/-- Claim C5 as amended: a literal target IP is encoded with ATYP 1 and its
4 bytes only when it is stored in 4-byte form; every 16-byte-stored address
(IPv4-mapped ones included) is encoded with ATYP 4 and its 16 bytes; any
other stored length fails with the invalid-address error. -/
theorem c5_amended_literal_classification (ip : List Nat) (port : Nat) :
    (ip.length = 4 →
      connectRequestBuf ip [] port
        = Except.ok ([5, 1, 0, 1] ++ ip
            ++ putUint16 (if port = 0 then 80 else port))) ∧
    (ip.length = 16 →
      connectRequestBuf ip [] port
        = Except.ok ([5, 1, 0, 4] ++ ip
            ++ putUint16 (if port = 0 then 80 else port))) ∧
    (ip.length ≠ 4 → ip.length ≠ 16 →
      connectRequestBuf ip [] port = Except.error TErr.ipInvalid) := by
  refine ⟨?_, ?_, ?_⟩
  · intro h4
    simp [connectRequestBuf, ipTo4, h4]
  · intro h16
    simp [connectRequestBuf, ipTo4, ipTo16, h16]
  · intro h4 h16
    simp [connectRequestBuf, ipTo4, ipTo16, h4, h16]

/-- Witness for the amended C5 theorem at a 4-byte-stored address. -/
theorem c5_amended_witness :
    connectRequestBuf [9, 9, 9, 9] [] 0
      = Except.ok [5, 1, 0, 1, 9, 9, 9, 9, 0, 80] := by
  rw [(c5_amended_literal_classification [9, 9, 9, 9] 0).1 rfl]
  rfl

/-- Claim C9: a (non-empty) domain-name target of at most 255 bytes is
encoded as ATYP 3 with a 1-byte length prefix followed by the name bytes;
a name of 256 bytes or more fails with the name-too-long error, and at the
session level no CONNECT request is written (the trace ends at the
greeting). -/
theorem c9_domain_encoding (ip name : List Nat) (port : Nat)
    (hne : name ≠ []) :
    (name.length ≤ 255 →
      connectRequestBuf ip name port
        = Except.ok ([5, 1, 0, 3, name.length] ++ name
            ++ putUint16 (if port = 0 then 80 else port))) ∧
    (256 ≤ name.length →
      connectRequestBuf ip name port = Except.error TErr.domainTooLong) ∧
    (256 ≤ name.length →
      Tunnel (RAddr.domain name port) [] [] [[5, 0]]
        = (Except.error TErr.domainTooLong, [[5, 1, 0]])) := by
  refine ⟨?_, ?_, ?_⟩
  · intro h255
    have hmod : name.length % 256 = name.length := Nat.mod_eq_of_lt (by omega)
    have hngt : ¬ name.length > 255 := by omega
    simp [connectRequestBuf, hne, hngt, hmod]
  · intro h256
    have hgt : name.length > 255 := by omega
    simp [connectRequestBuf, hne, hgt]
  · intro h256
    have hgt : name.length > 255 := by omega
    have hstep := tunnelNegotiate_reply (netIPv4 0 0 0 1) name (port % 65536)
      [] [] 5 0 []
    rw [if_neg (by decide), if_neg (by decide)] at hstep
    show tunnelNegotiate (netIPv4 0 0 0 1) name (port % 65536) [] [] [[5, 0]]
      = (Except.error TErr.domainTooLong, [[5, 1, 0]])
    rw [hstep]
    simp [tunnelConnect, connectRequestBuf, hne, hgt, greetingBuf]

/-- Witness for C9 at a concrete 1-byte domain name. -/
theorem c9_domain_witness :
    connectRequestBuf [0] [97] 0 = Except.ok [5, 1, 0, 3, 1, 97, 0, 80] := by
  rw [(c9_domain_encoding [0] [97] 0 (by decide)).1 (by decide)]
  rfl

end DeepinProxy
